import Mathlib

/-!
# DisMu — verification of the per-guild queue/playback engine

Shallow embedding of the per-guild playback state and the queue/playback
operations of the DisMu music bot:

* `GState` embeds the per-guild settings dictionary created by
  `ensure_guild_settings` (src/utility/helpers.py): `volume`, `loop`,
  `currently_playing`, `song_queue`, `replay`.
* `play_next_in_queue` and `after_song` embed the playback coordinator of
  src/utility/helpers.py; the blocking yt-dlp resolution is abstracted as a
  `Resolver` oracle, and a resolution that raises an exception is modelled as
  the oracle returning `none` (the source catches every exception of the try
  block, logs it, notifies the channel and recurses on the rest of the queue).
* `skip`, `skip_to`, `bump`, `remove`, `move` embed the queue commands of
  src/cogs/music_queue.py; `play` and `replay` embed src/cogs/music_main.py;
  `volume` embeds src/cogs/music_control.py.

Discord I/O (messages, voice transport) is outside the state machine; the
messages a command sends are reflected in its result value (`QErr`,
`PlayResult`, `Event`).  `ctx.voice_client.is_playing()` is an input bit
`is_playing` to the commands that consult it.  `ctx.voice_client.stop()` has
no direct state effect: it asks the backend to stop, and the induced
completion callback `after_song` is applied separately where a claim needs
the full stop→completion→advance cycle.
-/

namespace DisMu

/-- A queued or playing item, as stored by the source: a `(title, url)` pair.
Tracks have no identity beyond value equality; duplicates may occur. -/
abbrev Track := String × String

/-- Successful result of the yt-dlp extraction: `info['url']` (the stream url,
a `KeyError` on a missing key is an exception, i.e. a failed resolution) and
`info.get('title', ...)` (an optional title). -/
structure ResolveInfo where
  url : String
  title : Option String
  deriving DecidableEq, Repr

/-- Resolution oracle standing for `ydl.extract_info(video_url, download=False)`
run via `asyncio.to_thread`; `none` models the call raising an exception. -/
abbrev Resolver := String → Option ResolveInfo

/-- The per-guild settings dictionary installed by `ensure_guild_settings`
(helpers.py): keys `volume`, `loop`, `currently_playing`, `song_queue`,
`replay`.  Python floats are embedded as rationals; the `song_queue` deque is
an ordered list with its left end at the head. -/
structure GState where
  volume : ℚ
  loop : Bool
  currentlyPlaying : Option Track
  songQueue : List Track
  replayFlag : Bool
  deriving DecidableEq, Repr

/-- The defaults written by `ensure_guild_settings` on first reference:
volume `0.5`, loop off, nothing playing, empty queue, replay off. -/
def defaultSettings : GState :=
  { volume := 1/2
    loop := false
    currentlyPlaying := none
    songQueue := []
    replayFlag := false }

/-- Observable notifications of the coordinator, one per message the source
sends while advancing the queue:
`nowPlaying t` = "Now playing: {t}" (successful submission),
`playError u` = `logger.error` + "An error occurred while trying to play the
audio." raised while attempting the entry with url `u`,
`queueFinished` = "Queue is empty. Playback finished.". -/
inductive Event
  | nowPlaying (title : String)
  | playError (locator : String)
  | queueFinished
  deriving DecidableEq, Repr

/-- Recursion core of `play_next_in_queue` (helpers.py): acts on the queue and
the currently-playing slot.  The source pops the front entry, resolves it, and
on success stores `(info.get('title', title), video_url)` as currently playing
and submits the stream; on an exception it logs, notifies, and recurses on the
remaining queue; an empty queue clears the currently-playing slot. -/
def playNextGo (resolve : Resolver) :
    List Track → Option Track → List Track × Option Track × List Event
  | [], _ => ([], none, [Event.queueFinished])
  | (title, videoUrl) :: rest, cur =>
    match resolve videoUrl with
    | some info =>
        (rest, some (info.title.getD title, videoUrl),
          [Event.nowPlaying (info.title.getD title)])
    | none =>
        let r := playNextGo resolve rest cur
        (r.1, r.2.1, Event.playError videoUrl :: r.2.2)

/-- `play_next_in_queue(ctx, bot)` (helpers.py): advance the guild's playback
to the next queue entry, skipping entries whose resolution fails. -/
def play_next_in_queue (resolve : Resolver) (s : GState) : GState × List Event :=
  let r := playNextGo resolve s.songQueue s.currentlyPlaying
  ({ s with songQueue := r.1, currentlyPlaying := r.2.1 }, r.2.2)

/-- The loop-requeue prefix of `after_song` (helpers.py): if `loop` is set and
something is currently playing, re-add the currently playing `(title, url)` to
the front of the queue. -/
def afterSongRequeue (s : GState) : GState :=
  match s.loop, s.currentlyPlaying with
  | true, some current => { s with songQueue := current :: s.songQueue }
  | _, _ => s

/-- `after_song(ctx, error, bot)` (helpers.py), the completion callback the
backend fires when a track ends: the error argument is only logged, then the
loop-requeue runs, then `play_next_in_queue` is scheduled on the event loop. -/
def after_song (error : Option String) (resolve : Resolver) (s : GState) :
    GState × List Event :=
  play_next_in_queue resolve (afterSongRequeue s)

/-- Terminal outcome of a queue command, one per message branch of the source:
`ok` = the success confirmation, `outOfRange` = "That position is out of
range." / "That queue position is invalid." / "Positions are out of range.",
`queueEmpty` = "The queue is empty.". -/
inductive QErr
  | ok
  | outOfRange
  | queueEmpty
  deriving DecidableEq, Repr

/-- `bump(ctx, position)` (music_queue.py): reject an empty queue first, then
validate `1 <= position <= len(queue)`; on success `songs_list.pop(position-1)`
followed by `songs_list.insert(0, bumped_song)` and a clear-and-extend rebuild
of the deque. -/
def bump (s : GState) (position : Int) : GState × QErr :=
  if s.songQueue.isEmpty then (s, .queueEmpty)
  else if 1 ≤ position ∧ position ≤ s.songQueue.length then
    let p := position.toNat - 1
    let bumpedSong := s.songQueue.getD p ("", "")
    ({ s with songQueue := bumpedSong :: s.songQueue.eraseIdx p }, .ok)
  else (s, .outOfRange)

/-- `remove(ctx, position)` (music_queue.py): validate
`position < 1 or position > len(queue)` (no separate empty-queue branch), then
`songs_list.pop(position - 1)` and a clear-and-extend rebuild. -/
def remove (s : GState) (position : Int) : GState × QErr :=
  if position < 1 ∨ position > s.songQueue.length then (s, .outOfRange)
  else ({ s with songQueue := s.songQueue.eraseIdx (position.toNat - 1) }, .ok)

/-- `move(ctx, from_pos, to_pos)` (music_queue.py): both indices validated
together before any mutation, then `pop(from_pos - 1)` followed by
`insert(to_pos - 1, song)` on the resulting list. -/
def move (s : GState) (from_pos to_pos : Int) : GState × QErr :=
  if (from_pos < 1 ∨ from_pos > s.songQueue.length) ∨
      (to_pos < 1 ∨ to_pos > s.songQueue.length) then
    (s, .outOfRange)
  else
    let song := s.songQueue.getD (from_pos.toNat - 1) ("", "")
    ({ s with songQueue :=
        (s.songQueue.eraseIdx (from_pos.toNat - 1)).insertIdx (to_pos.toNat - 1) song },
      .ok)

/-- `skip(ctx)` (music_queue.py): if the voice client is playing, disable
`loop` and ask the backend to stop (the completion callback then advances);
otherwise report that nothing is playing.  The returned bit is `true` exactly
on the "Skipped the current song." branch. -/
def skip (s : GState) (is_playing : Bool) : GState × Bool :=
  if is_playing then ({ s with loop := false }, true)
  else (s, false)

/-- `skip_to(ctx, position)` (music_queue.py): reject an empty queue first,
then validate `position < 1 or position > len(queue)`; on success popleft
`position - 1` entries, then stop the backend if playing (completion will
advance) or `await play_next_in_queue` directly when idle. -/
def skip_to (resolve : Resolver) (s : GState) (position : Int)
    (is_playing : Bool) : GState × QErr :=
  if s.songQueue.isEmpty then (s, .queueEmpty)
  else if position < 1 ∨ position > s.songQueue.length then (s, .outOfRange)
  else
    let s1 := { s with songQueue := s.songQueue.drop (position.toNat - 1) }
    if is_playing then (s1, .ok)
    else ((play_next_in_queue resolve s1).1, .ok)

/-- Terminal outcome of the `play` command. -/
inductive PlayResult
  | ok (title : String)
  | error
  deriving DecidableEq, Repr

/-- `play(ctx, url)` (music_main.py): resolve the url inside the try block;
on success store `(info.get('title', 'Unknown Title'), url)` as currently
playing, stop the old session and submit the new stream; on an exception the
handler logs and notifies without having touched the guild state. -/
def play (resolve : Resolver) (s : GState) (url : String) : GState × PlayResult :=
  match resolve url with
  | some info =>
      let title := info.title.getD "Unknown Title"
      ({ s with currentlyPlaying := some (title, url) }, .ok title)
  | none => (s, .error)

/-- `volume(ctx, vol)` (music_control.py): the guard is
`if not vol or vol < 0.0 or vol > 2.0`; for a float argument `not vol` is
truthy exactly when `vol == 0.0`, so the embedded test is
`vol = 0 ∨ vol < 0 ∨ vol > 2`.  On success the guild's volume is set to
`vol`; the returned bit is `true` exactly on the success branch. -/
def volume (s : GState) (vol : ℚ) : GState × Bool :=
  if vol = 0 ∨ vol < 0 ∨ vol > 2 then (s, false)
  else ({ s with volume := vol }, true)

/-- `replay(ctx)` (music_main.py): requires an active voice client that is
playing and a currently-playing entry; then appendleft the currently playing
`(title, url)` to the queue and ask the backend to stop (the completion
callback will re-play it).  The returned bit is `true` exactly on the
"Replaying..." branch. -/
def replay (s : GState) (is_playing : Bool) : GState × Bool :=
  if is_playing then
    match s.currentlyPlaying with
    | some current => ({ s with songQueue := current :: s.songQueue }, true)
    | none => (s, false)
  else (s, false)

/-- The spec's disjointness invariant, as a decidable check: the currently
playing track does not occur among the queued entries. -/
def nowPlayingDisjoint (s : GState) : Bool :=
  match s.currentlyPlaying with
  | some t => !(s.songQueue.contains t)
  | none => true

/-! ### Concrete fixtures used by witnesses and counterexamples -/

/-- A resolver that succeeds on every locator and reports no title, so the
queued title is kept (`info.get('title', title)` falls back). -/
def okResolver : Resolver := fun _ => some { url := "stream", title := none }

/-- The spec scenario queue `[A, B, C, D]`, idle. -/
def stateABCD : GState :=
  { defaultSettings with songQueue := [("A", "a"), ("B", "b"), ("C", "c"), ("D", "d")] }

/-- The spec scenario queue `[("S1","u1"), ("S2","u2"), ("S3","u3")]`. -/
def stateS123 : GState :=
  { defaultSettings with songQueue := [("S1", "u1"), ("S2", "u2"), ("S3", "u3")] }

/-- A state that is playing track `("T", "t")` over an empty queue. -/
def stateLoopT : GState :=
  { defaultSettings with loop := true, currentlyPlaying := some ("T", "t") }

/-- A resolver that succeeds exactly on locator `"b"`: entry `A` is bad,
entry `B` is good. -/
def badAResolver : Resolver :=
  fun u => if u = "b" then some { url := "stream-b", title := none } else none

/-- A state playing `("T", "t")` with loop disabled and one other queued song. -/
def stateNoLoopT : GState :=
  { defaultSettings with currentlyPlaying := some ("T", "t"), songQueue := [("X", "x")] }

/-- A bad-then-good queue `[A, B]` for the skip-on-resolve-failure scenario. -/
def stateAB : GState :=
  { defaultSettings with songQueue := [("A", "a"), ("B", "b")] }

/-! ## Theorems -/

/-- C2 (code bug): `vol = 0.0` lies in the documented domain `[0.0, 2.0]`, yet
the `volume` command rejects it — the Python guard `not vol` is truthy for the
float `0.0` — and leaves the stored volume unchanged.  (For `vol` outside the
domain, or zero, the command always fails without mutation; for
`0 < vol ≤ 2` it succeeds, but the claim's inclusive lower bound is false.) -/
theorem volume_rejects_zero :
    (0 : ℚ) ≤ 0 ∧ (0 : ℚ) ≤ 2 ∧
    volume defaultSettings 0 = (defaultSettings, false) ∧
    (volume defaultSettings 0).1.volume = defaultSettings.volume := by
  refine ⟨le_refl 0, by norm_num, ?_, ?_⟩ <;> simp [volume]

/-- C4 (counterexample): on the empty queue every position is out of range,
but `bump` at position 1 reports `queueEmpty` ("The queue is empty."), not
`outOfRange`, contrary to the claim that every out-of-range position yields an
`OutOfRange` failure. -/
theorem bump_empty_not_out_of_range :
    ((1 : Int) < 1 ∨ (1 : Int) > (defaultSettings.songQueue.length : Int)) ∧
    bump defaultSettings 1 = (defaultSettings, QErr.queueEmpty) ∧
    (bump defaultSettings 1).2 ≠ QErr.outOfRange := by
  refine ⟨Or.inr (by decide), ?_, ?_⟩ <;> simp [bump, defaultSettings]

/-- C4 (amended): with an out-of-range 1-based position, `bump`, `remove`,
`move` and `skip_to` leave the state unchanged; `remove` and `move` report
`outOfRange`, while `bump` and `skip_to` report `outOfRange` on a nonempty
queue but `queueEmpty` on an empty one. -/
theorem queue_ops_reject_out_of_range (resolve : Resolver) (s : GState)
    (position from_pos to_pos : Int) (is_playing : Bool)
    (hpos : position < 1 ∨ position > (s.songQueue.length : Int)) :
    (bump s position).1 = s ∧
    remove s position = (s, QErr.outOfRange) ∧
    (skip_to resolve s position is_playing).1 = s ∧
    ((bump s position).2 =
      if s.songQueue.isEmpty then QErr.queueEmpty else QErr.outOfRange) ∧
    ((skip_to resolve s position is_playing).2 =
      if s.songQueue.isEmpty then QErr.queueEmpty else QErr.outOfRange) ∧
    ((from_pos < 1 ∨ from_pos > (s.songQueue.length : Int)) ∨
        (to_pos < 1 ∨ to_pos > (s.songQueue.length : Int)) →
      move s from_pos to_pos = (s, QErr.outOfRange)) := by
  have hnot : ¬ (1 ≤ position ∧ position ≤ (s.songQueue.length : Int)) := by omega
  refine ⟨?_, ?_, ?_, ?_, ?_, ?_⟩
  · cases he : s.songQueue.isEmpty <;> simp [bump, he, hnot]
  · simp [remove, hpos]
  · cases he : s.songQueue.isEmpty <;> simp [skip_to, he, hpos]
  · cases he : s.songQueue.isEmpty <;> simp [bump, he, hnot]
  · cases he : s.songQueue.isEmpty <;> simp [skip_to, he, hpos]
  · intro hmove
    simp [move, hmove]

/-- C4 (witness): a nonempty 2-song queue with position 5 — all four
operations refuse with `outOfRange` and leave the state unchanged. -/
theorem queue_ops_reject_out_of_range_witness :
    (bump stateAB 5).1 = stateAB ∧
    remove stateAB 5 = (stateAB, QErr.outOfRange) ∧
    (skip_to okResolver stateAB 5 false).1 = stateAB ∧
    ((bump stateAB 5).2 =
      if stateAB.songQueue.isEmpty then QErr.queueEmpty else QErr.outOfRange) ∧
    ((skip_to okResolver stateAB 5 false).2 =
      if stateAB.songQueue.isEmpty then QErr.queueEmpty else QErr.outOfRange) ∧
    (((5 : Int) < 1 ∨ (5 : Int) > (stateAB.songQueue.length : Int)) ∨
        ((5 : Int) < 1 ∨ (5 : Int) > (stateAB.songQueue.length : Int)) →
      move stateAB 5 5 = (stateAB, QErr.outOfRange)) :=
  queue_ops_reject_out_of_range okResolver stateAB 5 5 5 false (Or.inr (by decide))

/-- C7: when resolution of the url fails during a direct `play`, the command
reports the error and returns the guild state unchanged — in particular
`currently_playing` is untouched, since the source assigns it only after a
successful extraction. -/
theorem play_resolve_failure_leaves_state (resolve : Resolver) (s : GState)
    (url : String) (hr : resolve url = none) :
    play resolve s url = (s, PlayResult.error) := by
  simp [play, hr]

/-- C7 (witness): playing the unresolvable url `"a"` fails and leaves the
default state intact. -/
theorem play_resolve_failure_leaves_state_witness :
    play badAResolver defaultSettings "a" = (defaultSettings, PlayResult.error) :=
  play_resolve_failure_leaves_state badAResolver defaultSettings "a" rfl

/-- C9: for every valid 1-based position, `bump` succeeds and the new queue is
the bumped element followed by the untouched prefix and suffix — the relative
order of all other elements is preserved. -/
theorem bump_moves_to_front (s : GState) (position : Int)
    (h1 : 1 ≤ position) (h2 : position ≤ (s.songQueue.length : Int)) :
    (bump s position).2 = QErr.ok ∧
    (bump s position).1.songQueue =
      s.songQueue.getD (position.toNat - 1) ("", "") ::
        (s.songQueue.take (position.toNat - 1) ++ s.songQueue.drop position.toNat) := by
  have hne : s.songQueue.isEmpty = false := by
    cases hq : s.songQueue with
    | nil => rw [hq] at h2; simp at h2; omega
    | cons a l => rfl
  have hp : 1 ≤ position.toNat := by omega
  constructor
  · simp [bump, hne, h1, h2]
  · simp only [bump, hne, Bool.false_eq_true, if_false]
    rw [if_pos ⟨h1, h2⟩]
    simp only
    rw [List.eraseIdx_eq_take_drop_succ, Nat.sub_add_cancel hp]

/-- C9 (witness): `Bump(3)` on `[("S1","u1"),("S2","u2"),("S3","u3")]` yields
`[("S3","u3"),("S1","u1"),("S2","u2")]`. -/
theorem bump_moves_to_front_witness :
    (bump stateS123 3).2 = QErr.ok ∧
    (bump stateS123 3).1.songQueue =
      [("S3", "u3"), ("S1", "u1"), ("S2", "u2")] := by
  have h := bump_moves_to_front stateS123 3 (by decide) (by decide)
  exact ⟨h.1, h.2.trans (by decide)⟩

/-- C10: `skip` clears the loop flag before asking the backend to stop, so the
completion callback's loop-requeue step is a no-op: the queue it hands to the
subsequent advance is exactly the queue at the moment of the skip, with no
reinsertion of the skipped track. -/
theorem skip_never_loop_requeues (s : GState) (h : s.loop = true) :
    ((skip s true).1).loop = false ∧
    afterSongRequeue ((skip s true).1) = (skip s true).1 ∧
    (afterSongRequeue ((skip s true).1)).songQueue = s.songQueue := by
  refine ⟨?_, ?_, ?_⟩ <;> simp [skip, afterSongRequeue]

/-- C10 (witness): skipping while looping on `("T","t")` — the requeue step
leaves the (empty) queue untouched. -/
theorem skip_never_loop_requeues_witness :
    ((skip stateLoopT true).1).loop = false ∧
    afterSongRequeue ((skip stateLoopT true).1) = (skip stateLoopT true).1 ∧
    (afterSongRequeue ((skip stateLoopT true).1)).songQueue = stateLoopT.songQueue :=
  skip_never_loop_requeues stateLoopT rfl

/-- C1 (counterexample): `skip_to 2` on the idle queue `[A,B,C,D]` (with every
resolution succeeding) does leave the queue equal to `[C,D]`, but the track it
starts is `B` — the entry at position 2, which the advance pops — not `C` as
the claim states. -/
theorem skip_to_two_counterexample :
    (skip_to okResolver stateABCD 2 false).1.songQueue = [("C", "c"), ("D", "d")] ∧
    (skip_to okResolver stateABCD 2 false).1.currentlyPlaying = some ("B", "b") ∧
    (skip_to okResolver stateABCD 2 false).1.currentlyPlaying ≠ some ("C", "c") := by
  refine ⟨?_, ?_, ?_⟩ <;>
    simp [skip_to, play_next_in_queue, playNextGo, stateABCD, defaultSettings, okResolver]

/-- C1 (amended): `skip_to pos` while idle discards the `pos - 1` entries
before position `pos` and advances, so the entry at position `pos` becomes the
current track and the queue keeps exactly the entries after it. -/
theorem skip_to_idle_advances (resolve : Resolver) (s : GState) (position : Int)
    (T : Track) (a : String)
    (h1 : 1 ≤ position) (h2 : position ≤ (s.songQueue.length : Int))
    (hT : s.songQueue[position.toNat - 1]? = some T)
    (hr : resolve T.2 = some { url := a, title := none }) :
    (skip_to resolve s position false).2 = QErr.ok ∧
    (skip_to resolve s position false).1.songQueue = s.songQueue.drop position.toNat ∧
    (skip_to resolve s position false).1.currentlyPlaying = some T := by
  obtain ⟨t1, t2⟩ := T
  obtain ⟨hlt, hget⟩ := List.getElem?_eq_some.mp hT
  have hne : s.songQueue.isEmpty = false := by
    cases hq : s.songQueue with
    | nil => rw [hq] at h2; simp at h2; omega
    | cons a l => rfl
  have hnpos : ¬ (position < 1 ∨ position > (s.songQueue.length : Int)) := by omega
  have hdrop : s.songQueue.drop (position.toNat - 1) =
      (t1, t2) :: s.songQueue.drop position.toNat := by
    rw [List.drop_eq_getElem_cons hlt, hget,
      Nat.sub_add_cancel (by omega : 1 ≤ position.toNat)]
  refine ⟨?_, ?_, ?_⟩ <;>
    simp [skip_to, hne, hnpos, play_next_in_queue, hdrop, playNextGo, hr]

/-- C1 (witness): on the idle queue `[A,B,C,D]`, `skip_to 2` yields the queue
`[C,D]` with current track `B`. -/
theorem skip_to_idle_advances_witness :
    (skip_to okResolver stateABCD 2 false).2 = QErr.ok ∧
    (skip_to okResolver stateABCD 2 false).1.songQueue = [("C", "c"), ("D", "d")] ∧
    (skip_to okResolver stateABCD 2 false).1.currentlyPlaying = some ("B", "b") := by
  have h := skip_to_idle_advances okResolver stateABCD 2 ("B", "b") "stream"
    (by decide) (by decide) (by decide) rfl
  exact ⟨h.1, h.2.1.trans (by decide), h.2.2⟩

/-- C3 (counterexample): the disjointness invariant fails at a reachable
state: `replay` deliberately appendlefts the currently playing track onto the
queue while it is still current, and only the later asynchronous completion
removes it again — immediately after the `replay` command returns, the queue
contains the current track. -/
theorem replay_breaks_disjointness :
    nowPlayingDisjoint stateLoopT = true ∧
    (replay stateLoopT true).2 = true ∧
    nowPlayingDisjoint ((replay stateLoopT true).1) = false := by
  refine ⟨rfl, ?_, ?_⟩ <;> simp [replay, nowPlayingDisjoint, stateLoopT, defaultSettings]

/-- C3 (amended): disjointness is violated only transiently, by both paths
that deliberately enqueue the still-current track.  With current track `T`
absent from the queue: `replay` puts `T` at the queue front while it is still
current (breaking disjointness), and — when loop is off, so the completion
does not immediately requeue another copy — the induced completion cycle
re-plays `T`, restoring the original queue and disjointness; likewise with
loop on, the completion callback's own loop-requeue step puts `T` at the queue
front while it is still current, and the advance it triggers consumes that
entry, restoring the original queue and disjointness. -/
theorem transient_disjointness_restored (s : GState) (T : Track) (a : String)
    (resolve : Resolver)
    (hc : s.currentlyPlaying = some T) (hq : T ∉ s.songQueue)
    (hr : resolve T.2 = some { url := a, title := none }) :
    (nowPlayingDisjoint ((replay s true).1) = false ∧
      (s.loop = false →
        (after_song none resolve (replay s true).1).1.currentlyPlaying = some T ∧
        (after_song none resolve (replay s true).1).1.songQueue = s.songQueue ∧
        nowPlayingDisjoint (after_song none resolve (replay s true).1).1 = true)) ∧
    (s.loop = true →
      nowPlayingDisjoint (afterSongRequeue s) = false ∧
      (after_song none resolve s).1.currentlyPlaying = some T ∧
      (after_song none resolve s).1.songQueue = s.songQueue ∧
      nowPlayingDisjoint (after_song none resolve s).1 = true) := by
  obtain ⟨t1, t2⟩ := T
  have hmem : s.songQueue.contains (t1, t2) = false := by simpa using hq
  refine ⟨⟨?_, fun hl => ?_⟩, fun hl => ?_⟩
  · simp [replay, hc, nowPlayingDisjoint]
  · refine ⟨?_, ?_, ?_⟩ <;>
      simp [replay, hc, hl, after_song, afterSongRequeue, play_next_in_queue,
        playNextGo, hr, nowPlayingDisjoint, hmem, hq]
  · refine ⟨?_, ?_, ?_, ?_⟩ <;>
      simp [hc, hl, after_song, afterSongRequeue, play_next_in_queue,
        playNextGo, hr, nowPlayingDisjoint, hmem, hq]

/-- C3 (witness): replaying `("T","t")` over the queue `[("X","x")]` with loop
off breaks disjointness transiently and the completion cycle restores it; the
loop-requeue of a completion while looping on `("T","t")` does the same. -/
theorem transient_disjointness_restored_witness :
    (nowPlayingDisjoint ((replay stateNoLoopT true).1) = false ∧
      (after_song none okResolver (replay stateNoLoopT true).1).1.currentlyPlaying =
        some ("T", "t") ∧
      (after_song none okResolver (replay stateNoLoopT true).1).1.songQueue =
        stateNoLoopT.songQueue ∧
      nowPlayingDisjoint
        (after_song none okResolver (replay stateNoLoopT true).1).1 = true) ∧
    (nowPlayingDisjoint (afterSongRequeue stateLoopT) = false ∧
      (after_song none okResolver stateLoopT).1.currentlyPlaying = some ("T", "t") ∧
      (after_song none okResolver stateLoopT).1.songQueue = stateLoopT.songQueue ∧
      nowPlayingDisjoint (after_song none okResolver stateLoopT).1 = true) := by
  have h1 := transient_disjointness_restored stateNoLoopT ("T", "t") "stream"
    okResolver rfl (by decide) rfl
  have h2 := transient_disjointness_restored stateLoopT ("T", "t") "stream"
    okResolver rfl (by decide) rfl
  exact ⟨⟨h1.1.1, h1.1.2 rfl⟩, h2.2 rfl⟩

/-- C5: for every tenant state with loop enabled and current track `T`, the
completion callback first reinserts `T` at the queue front (before the
advance consumes it), and the full cycle ends with `T` current again over the
original queue — in particular, over an otherwise-empty queue, `current = T`
again with the queue still empty. -/
theorem loop_requeues_and_replays (s : GState) (T : Track) (a : String)
    (resolve : Resolver)
    (hl : s.loop = true) (hc : s.currentlyPlaying = some T)
    (hr : resolve T.2 = some { url := a, title := none }) :
    (afterSongRequeue s).songQueue = T :: s.songQueue ∧
    (after_song none resolve s).1.currentlyPlaying = some T ∧
    (after_song none resolve s).1.songQueue = s.songQueue := by
  obtain ⟨t1, t2⟩ := T
  refine ⟨?_, ?_, ?_⟩ <;>
    simp [after_song, afterSongRequeue, hl, hc, play_next_in_queue,
      playNextGo, hr]

/-- C5 (witness): looping `("T","t")` over the empty queue — one completion
cycle requeues it, consumes it, and it is current again over the (still
empty) original queue. -/
theorem loop_requeues_and_replays_witness :
    (afterSongRequeue stateLoopT).songQueue = ("T", "t") :: stateLoopT.songQueue ∧
    (after_song none okResolver stateLoopT).1.currentlyPlaying = some ("T", "t") ∧
    (after_song none okResolver stateLoopT).1.songQueue = stateLoopT.songQueue :=
  loop_requeues_and_replays stateLoopT ("T", "t") "stream" okResolver
    rfl rfl rfl

/-- C6: advancing onto the queue `A :: B :: rest` where `A` fails to resolve
and `B` resolves: the advance records the error for `A` (log plus channel
notification), continues with `B` as the current track, and returns normally —
the exception is caught inside `play_next_in_queue`, never propagated to the
command that triggered the advance. -/
theorem advance_skips_bad_track (resolve : Resolver) (s : GState)
    (A B : Track) (rest : List Track) (b : String)
    (hq : s.songQueue = A :: B :: rest)
    (hA : resolve A.2 = none) (hB : resolve B.2 = some { url := b, title := none }) :
    (play_next_in_queue resolve s).1.currentlyPlaying = some B ∧
    (play_next_in_queue resolve s).1.songQueue = rest ∧
    (play_next_in_queue resolve s).2 =
      [Event.playError A.2, Event.nowPlaying B.1] := by
  obtain ⟨a1, a2⟩ := A
  obtain ⟨b1, b2⟩ := B
  refine ⟨?_, ?_, ?_⟩ <;> simp [play_next_in_queue, hq, playNextGo, hA, hB]

/-- C6 (witness): queue `[("A","a"), ("B","b")]` with `"a"` unresolvable and
`"b"` resolvable — the advance ends playing `B` with the error for `A`
recorded. -/
theorem advance_skips_bad_track_witness :
    (play_next_in_queue badAResolver stateAB).1.currentlyPlaying = some ("B", "b") ∧
    (play_next_in_queue badAResolver stateAB).1.songQueue = [] ∧
    (play_next_in_queue badAResolver stateAB).2 =
      [Event.playError "a", Event.nowPlaying "B"] :=
  advance_skips_bad_track badAResolver stateAB ("A", "a") ("B", "b") [] "stream-b"
    rfl rfl rfl

/-- C8: the advance recursion is bounded by the queue length — it pops one
entry per attempt, so it emits at most `len(queue) + 1` notifications and
never grows the queue — and on the empty queue it terminates immediately in
the idle state with no current track. -/
theorem advance_terminates_bounded (resolve : Resolver) (q : List Track)
    (cur : Option Track) :
    (playNextGo resolve q cur).2.2.length ≤ q.length + 1 ∧
    (playNextGo resolve q cur).1.length ≤ q.length ∧
    playNextGo resolve [] cur = ([], none, [Event.queueFinished]) := by
  refine ⟨?_, ?_, rfl⟩ <;>
  · induction q with
    | nil => simp [playNextGo]
    | cons t rest ih =>
      obtain ⟨title, url⟩ := t
      cases hru : resolve url <;> simp [playNextGo, hru] <;> omega

end DisMu
